import Mathlib

/-!
Verification of the NexaOS repository sources against its natural-language
specification.

Part 1 models `src/userspace/stub_libc.c`: a bump allocator (`malloc`, `free`,
`calloc`, `realloc`) over a fixed heap region, with 64-bit unsigned wraparound
arithmetic made explicit (`% M` with `M = 2 ^ 64`).

Part 2 models the HTTP/3 connection engine whose C API is declared in
`src/userspace/lib/nh3/include/nghttp3.h`.  The repository contains only the
header (declarations, enum values and macros); the behaviour of the declared
functions is modelled from the specification where noted.
-/

namespace StubLibc

/-- The modulus of `unsigned long` arithmetic: the target is 64-bit. -/
def M : Nat := 2 ^ 64

/-- The HEAP_START constant from stub_libc.c: the heap region starts at the 5 MB mark. -/
def HEAP_START : Nat := 0x500000

/-- The HEAP_SIZE constant from stub_libc.c: a 1 MB heap. -/
def HEAP_SIZE : Nat := 0x100000

/-- The heap_end variable from stub_libc.c; it is initialized to HEAP_START + HEAP_SIZE and
never written afterwards, so it is modelled as a constant. -/
def heap_end : Nat := HEAP_START + HEAP_SIZE

/-- The mutable state of stub_libc.c's allocator: the bump pointer `heap_ptr`
and the byte contents of memory (addresses are 64-bit values, bytes are
modelled as `Nat`). -/
structure HeapSt where
  heap_ptr : Nat
  mem : Nat → Nat

/-- The initial allocator state: `heap_ptr = HEAP_START`; memory contents are
arbitrary, fixed here to zero. -/
def initHeap : HeapSt := { heap_ptr := HEAP_START, mem := fun _ => 0 }

/-- The size alignment step of `malloc`: `size = (size + 15) & ~15` computed on
a 64-bit `unsigned long` (the addition wraps, `~15 = 2 ^ 64 - 16`). -/
def alignSize (size : Nat) : Nat := ((size + 15) % M) &&& (M - 16)

/-- The malloc function from stub_libc.c.  The returned value is the C pointer as a 64-bit
number; 0 is the null pointer (`return (void*)0` on out-of-memory). -/
def malloc (st : HeapSt) (size : Nat) : Nat × HeapSt :=
  let size := alignSize size
  let new_ptr := (st.heap_ptr + size) % M
  if heap_end < new_ptr then (0, st)
  else (st.heap_ptr, { st with heap_ptr := new_ptr })

/-- The free function from stub_libc.c: the body is empty (a bump allocator does not
support freeing). -/
def free (st : HeapSt) (ptr : Nat) : HeapSt := st

/-- A single byte store, used to model `p[i] = 0`. -/
def store (m : Nat → Nat) (a v : Nat) : Nat → Nat :=
  fun x => if x = a then v else m x

/-- The zeroing loop of `calloc`: `for i in 0..n-1, p[i] = 0`, with the
pointer arithmetic `p + i` taken modulo `2 ^ 64`. -/
def zeroFill (m : Nat → Nat) (p : Nat) : Nat → (Nat → Nat)
  | 0 => m
  | n + 1 => store (zeroFill m p n) ((p + n) % M) 0

/-- The calloc function from stub_libc.c: `total = nmemb * size` on `unsigned long`
(wrapping multiplication), then `malloc(total)` and, if the result is
non-null, zero `total` bytes. -/
def calloc (st : HeapSt) (nmemb size : Nat) : Nat × HeapSt :=
  let total := nmemb * size % M
  let r := malloc st total
  if r.1 ≠ 0 then (r.1, { r.2 with mem := zeroFill r.2.mem r.1 total })
  else r

/-- The realloc function from stub_libc.c: null pointer behaves as malloc; otherwise a new
block is allocated and returned without copying any bytes (the comment in the
source notes the old size is unknown, so nothing is copied). -/
def realloc (st : HeapSt) (ptr size : Nat) : Nat × HeapSt :=
  if ptr = 0 then malloc st size
  else
    let r := malloc st size
    if r.1 = 0 then (0, r.2)
    else r

/-- Run a sequence of malloc calls, collecting each returned pointer paired
with its requested size. -/
def runMallocs (st : HeapSt) : List Nat → List (Nat × Nat) × HeapSt
  | [] => ([], st)
  | size :: rest =>
    let r := malloc st size
    let rec' := runMallocs r.2 rest
    ((r.1, size) :: rec'.1, rec'.2)

/-- Byte-range disjointness of two (pointer, size) blocks. -/
def blocksDisjoint (x y : Nat × Nat) : Prop :=
  x.1 + x.2 ≤ y.1 ∨ y.1 + y.2 ≤ x.1

lemma testBit_M_sub_16 (i : Nat) :
    (M - 16).testBit i = (decide (4 ≤ i) && decide (i < 64)) := by
  have h : M - 16 = (2 ^ 60 - 1) <<< 4 := by decide
  rw [h, Nat.testBit_shiftLeft, Nat.testBit_two_pow_sub_one]
  by_cases h4 : 4 ≤ i
  · have h60 : i - 4 < 60 ↔ i < 64 := by omega
    simp [h4, h60]
  · simp [h4]

lemma land_clear_low (x : Nat) (hx : x < M) : x &&& (M - 16) = x / 16 * 16 := by
  apply Nat.eq_of_testBit_eq
  intro i
  rw [Nat.testBit_land, testBit_M_sub_16]
  have h16 : x / 16 * 16 = (x >>> 4) <<< 4 := by
    rw [Nat.shiftRight_eq_div_pow, Nat.shiftLeft_eq]
  rw [h16, Nat.testBit_shiftLeft, Nat.testBit_shiftRight]
  by_cases h4 : 4 ≤ i
  · have hi : 4 + (i - 4) = i := by omega
    rw [hi]
    by_cases h64 : i < 64
    · simp [h4, h64]
    · have hxa : x < 2 ^ i := by
        calc x < M := hx
        _ = 2 ^ 64 := rfl
        _ ≤ 2 ^ i := Nat.pow_le_pow_right (by norm_num) (by omega)
      simp [h4, h64, Nat.testBit_lt_two_pow hxa]
  · simp [h4]

lemma alignSize_eq (s : Nat) : alignSize s = (s + 15) % M / 16 * 16 := by
  have h : (s + 15) % M < M := Nat.mod_lt _ (by unfold M; positivity)
  rw [alignSize, land_clear_low _ h]

lemma alignSize_small (s : Nat) (hs : s ≤ HEAP_SIZE) :
    alignSize s = (s + 15) / 16 * 16 ∧ s ≤ alignSize s ∧
    alignSize s ≤ HEAP_SIZE ∧ 16 ∣ alignSize s := by
  have hmod : (s + 15) % M = s + 15 := by
    apply Nat.mod_eq_of_lt
    unfold HEAP_SIZE at hs
    unfold M
    omega
  have he : alignSize s = (s + 15) / 16 * 16 := by rw [alignSize_eq, hmod]
  refine ⟨he, ?_, ?_, ?_⟩
  · rw [he]
    have := Nat.div_mul_le_self (s + 15) 16
    have h2 : (s + 15) / 16 * 16 = s + 15 - (s + 15) % 16 := by omega
    have h3 : (s + 15) % 16 < 16 := Nat.mod_lt _ (by norm_num)
    omega
  · rw [he]
    have : (s + 15) / 16 ≤ (HEAP_SIZE + 15) / 16 := Nat.div_le_div_right (by omega)
    have h2 : (HEAP_SIZE + 15) / 16 = 65536 := by decide
    unfold HEAP_SIZE
    omega
  · rw [he]
    exact Dvd.intro_left _ rfl

/-- Under in-range inputs there is no 64-bit wraparound, and malloc either
fails leaving the state unchanged or bumps the pointer by the aligned size. -/
lemma malloc_eq_of_bounds (st : HeapSt) (size : Nat)
    (hp : st.heap_ptr ≤ heap_end) (hs : size ≤ HEAP_SIZE) :
    malloc st size =
      if heap_end < st.heap_ptr + alignSize size then (0, st)
      else (st.heap_ptr, { st with heap_ptr := st.heap_ptr + alignSize size }) := by
  obtain ⟨-, -, hle, -⟩ := alignSize_small size hs
  have hmod : (st.heap_ptr + alignSize size) % M = st.heap_ptr + alignSize size := by
    apply Nat.mod_eq_of_lt
    unfold heap_end HEAP_START HEAP_SIZE at hp
    unfold HEAP_SIZE at hle
    unfold M
    omega
  unfold malloc
  dsimp only
  rw [hmod]

/-- The bump-allocator invariant: starting from a well-formed state, a
sequence of in-range malloc calls keeps the bump pointer monotone and within
bounds, and every successful call returns an aligned block between the old
and the new bump pointer; blocks of distinct successful calls are disjoint. -/
lemma runMallocs_spec (sizes : List Nat) : ∀ st : HeapSt,
    HEAP_START ≤ st.heap_ptr → st.heap_ptr ≤ heap_end → 16 ∣ st.heap_ptr →
    (∀ s ∈ sizes, s ≤ HEAP_SIZE) →
    st.heap_ptr ≤ (runMallocs st sizes).2.heap_ptr ∧
    (runMallocs st sizes).2.heap_ptr ≤ heap_end ∧
    16 ∣ (runMallocs st sizes).2.heap_ptr ∧
    (∀ r ∈ (runMallocs st sizes).1, r.1 ≠ 0 →
      16 ∣ r.1 ∧ st.heap_ptr ≤ r.1 ∧ r.1 + r.2 ≤ (runMallocs st sizes).2.heap_ptr) ∧
    List.Pairwise (fun x y => x.1 ≠ 0 → y.1 ≠ 0 → blocksDisjoint x y)
      (runMallocs st sizes).1 := by
  induction sizes with
  | nil =>
    intro st h1 h2 h3 _
    refine ⟨le_refl _, h2, h3, ?_, ?_⟩ <;> simp [runMallocs]
  | cons size rest ih =>
    intro st h1 h2 h3 h4
    have hsz : size ≤ HEAP_SIZE := h4 size (by simp)
    have hrest : ∀ s ∈ rest, s ≤ HEAP_SIZE := fun s hs => h4 s (by simp [hs])
    obtain ⟨-, hge, hle, hdvd⟩ := alignSize_small size hsz
    have hm := malloc_eq_of_bounds st size h2 hsz
    by_cases hfit : heap_end < st.heap_ptr + alignSize size
    · rw [if_pos hfit] at hm
      obtain ⟨i1, i2, i3, i4, i5⟩ := ih st h1 h2 h3 hrest
      simp only [runMallocs, hm]
      refine ⟨i1, i2, i3, ?_, ?_⟩
      · intro r hr hne
        rcases List.mem_cons.mp hr with h | h
        · subst h; exact absurd rfl hne
        · exact i4 r h hne
      · refine List.Pairwise.cons ?_ i5
        intro y _ hx
        exact absurd rfl hx
    · rw [if_neg hfit] at hm
      push_neg at hfit
      set st' : HeapSt := { st with heap_ptr := st.heap_ptr + alignSize size } with hst'
      have h1' : HEAP_START ≤ st'.heap_ptr := le_trans h1 (Nat.le_add_right _ _)
      have h2' : st'.heap_ptr ≤ heap_end := hfit
      have h3' : 16 ∣ st'.heap_ptr := Nat.dvd_add h3 hdvd
      obtain ⟨i1, i2, i3, i4, i5⟩ := ih st' h1' h2' h3' hrest
      have hp0 : st.heap_ptr ≠ 0 := by
        unfold HEAP_START at h1; omega
      simp only [runMallocs, hm]
      refine ⟨?_, i2, i3, ?_, ?_⟩
      · exact le_trans (Nat.le_add_right _ _) i1
      · intro r hr hne
        rcases List.mem_cons.mp hr with h | h
        · subst h
          refine ⟨h3, le_refl _, ?_⟩
          calc st.heap_ptr + size ≤ st'.heap_ptr := by
                simp only [hst']; omega
            _ ≤ (runMallocs st' rest).2.heap_ptr := i1
        · obtain ⟨j1, j2, j3⟩ := i4 r h hne
          exact ⟨j1, le_trans (Nat.le_add_right _ _) (le_trans (le_of_eq rfl) j2), j3⟩
      · refine List.Pairwise.cons ?_ i5
        intro y hy _ hy0
        obtain ⟨-, j2, -⟩ := i4 y hy hy0
        left
        calc st.heap_ptr + size ≤ st'.heap_ptr := by simp only [hst']; omega
          _ ≤ y.1 := j2

/-- Claim C8 fails as literally stated: with a near-2^64 request the 64-bit
wraparound in `heap_ptr + size` defeats the bounds check.  The first call
succeeds (non-null) yet moves the bump pointer backwards, and the next call
succeeds returning a non-null pointer below HEAP_START, outside the heap
region. -/
theorem c8_malloc_counterexample :
    (malloc initHeap (2 ^ 64 - 16)).1 ≠ 0 ∧
    (malloc initHeap (2 ^ 64 - 16)).2.heap_ptr < initHeap.heap_ptr ∧
    (malloc (malloc initHeap (2 ^ 64 - 16)).2 16).1 ≠ 0 ∧
    (malloc (malloc initHeap (2 ^ 64 - 16)).2 16).1 < HEAP_START := by decide

/-- Claim C8 (amended): provided every requested size is at most the heap
capacity (so that the 64-bit arithmetic cannot wrap), every malloc call
either returns the null pointer 0 or a 16-byte aligned pointer whose block
lies inside the heap region, blocks of distinct successful calls are
pairwise disjoint, and the bump pointer never moves backwards and never
exceeds heap_end. -/
theorem c8_malloc_bump_invariants (sizes : List Nat)
    (hs : ∀ s ∈ sizes, s ≤ HEAP_SIZE) :
    initHeap.heap_ptr ≤ (runMallocs initHeap sizes).2.heap_ptr ∧
    (runMallocs initHeap sizes).2.heap_ptr ≤ heap_end ∧
    (∀ r ∈ (runMallocs initHeap sizes).1, r.1 ≠ 0 →
      16 ∣ r.1 ∧ HEAP_START ≤ r.1 ∧ r.1 + r.2 ≤ heap_end) ∧
    List.Pairwise (fun x y => x.1 ≠ 0 → y.1 ≠ 0 → blocksDisjoint x y)
      (runMallocs initHeap sizes).1 := by
  obtain ⟨i1, i2, i3, i4, i5⟩ :=
    runMallocs_spec sizes initHeap (le_refl _) (by decide) (by decide) hs
  refine ⟨i1, i2, ?_, i5⟩
  intro r hr hne
  obtain ⟨j1, j2, j3⟩ := i4 r hr hne
  exact ⟨j1, j2, le_trans j3 i2⟩

/-- Witness for the amended claim C8 at a concrete run of two allocations. -/
theorem c8_malloc_bump_invariants_witness :
    (runMallocs initHeap [16, 1024]).2.heap_ptr ≤ heap_end :=
  (c8_malloc_bump_invariants [16, 1024] (by decide)).2.1

lemma zeroFill_in (m : Nat → Nat) (p : Nat) : ∀ n, p + n ≤ M →
    ∀ i < n, zeroFill m p n (p + i) = 0 := by
  intro n
  induction n with
  | zero => intro _ i hi; omega
  | succ n ih =>
    intro hnw i hi
    have hmod : (p + n) % M = p + n := Nat.mod_eq_of_lt (by omega)
    rw [zeroFill, hmod]
    unfold store
    by_cases hin : p + i = p + n
    · simp [hin]
    · simp only [hin, if_false]
      exact ih (by omega) i (by omega)

lemma zeroFill_out (m : Nat → Nat) (p : Nat) : ∀ n, p + n ≤ M →
    ∀ a, (a < p ∨ p + n ≤ a) → zeroFill m p n a = m a := by
  intro n
  induction n with
  | zero => intro _ a _; rfl
  | succ n ih =>
    intro hnw a ha
    have hmod : (p + n) % M = p + n := Nat.mod_eq_of_lt (by omega)
    rw [zeroFill, hmod]
    unfold store
    have hne : a ≠ p + n := by omega
    simp only [hne, if_false]
    exact ih (by omega) a (by omega)

/-- The behaviour of calloc when the (wrapped) byte count is in range and the
allocation succeeds: it returns the old bump pointer, advances by the aligned
count, zeroes exactly the wrapped count of bytes, and touches nothing else. -/
lemma calloc_spec (st : HeapSt) (nmemb size : Nat)
    (hlo : HEAP_START ≤ st.heap_ptr) (hhi : st.heap_ptr ≤ heap_end)
    (ht : nmemb * size % M ≤ HEAP_SIZE)
    (hfit : st.heap_ptr + alignSize (nmemb * size % M) ≤ heap_end) :
    (calloc st nmemb size).1 = st.heap_ptr ∧
    (calloc st nmemb size).2.heap_ptr = st.heap_ptr + alignSize (nmemb * size % M) ∧
    (∀ i < nmemb * size % M, (calloc st nmemb size).2.mem (st.heap_ptr + i) = 0) ∧
    (∀ a, a < st.heap_ptr ∨ st.heap_ptr + nmemb * size % M ≤ a →
      (calloc st nmemb size).2.mem a = st.mem a) := by
  have hm := malloc_eq_of_bounds st (nmemb * size % M) hhi ht
  rw [if_neg (not_lt.mpr hfit)] at hm
  have hp0 : st.heap_ptr ≠ 0 := by unfold HEAP_START at hlo; omega
  have hbound : st.heap_ptr + nmemb * size % M ≤ M := by
    unfold heap_end HEAP_START HEAP_SIZE at hhi
    unfold HEAP_SIZE at ht
    unfold M at ht ⊢
    omega
  unfold calloc
  dsimp only
  rw [hm, if_pos hp0]
  refine ⟨rfl, rfl, ?_, ?_⟩
  · intro i hi
    exact zeroFill_in st.mem st.heap_ptr (nmemb * size % M) hbound i hi
  · intro a ha
    exact zeroFill_out st.mem st.heap_ptr (nmemb * size % M) hbound a ha

/-- Claim C9: calloc computes the byte count as `nmemb * size` reduced modulo
2^64 with no overflow check.  First conjunct: when the mathematical product
is at least 2^64, calloc allocates and zeroes only the wrapped-around count
and still returns a non-null pointer when that count fits in the heap.
Second conjunct: when the product fits in 64 bits and the allocation
succeeds, every byte of the returned block is zero. -/
theorem c9_calloc_wrapping (st : HeapSt) (nmemb size : Nat)
    (hlo : HEAP_START ≤ st.heap_ptr) (hhi : st.heap_ptr ≤ heap_end) :
    (M ≤ nmemb * size →
      nmemb * size % M ≤ HEAP_SIZE →
      st.heap_ptr + alignSize (nmemb * size % M) ≤ heap_end →
      (calloc st nmemb size).1 ≠ 0 ∧
      (calloc st nmemb size).1 = st.heap_ptr ∧
      (calloc st nmemb size).2.heap_ptr = st.heap_ptr + alignSize (nmemb * size % M) ∧
      (∀ i < nmemb * size % M, (calloc st nmemb size).2.mem (st.heap_ptr + i) = 0) ∧
      (∀ a, a < st.heap_ptr ∨ st.heap_ptr + nmemb * size % M ≤ a →
        (calloc st nmemb size).2.mem a = st.mem a)) ∧
    (nmemb * size < M →
      nmemb * size ≤ HEAP_SIZE →
      st.heap_ptr + alignSize (nmemb * size) ≤ heap_end →
      (calloc st nmemb size).1 ≠ 0 ∧
      (∀ i < nmemb * size, (calloc st nmemb size).2.mem ((calloc st nmemb size).1 + i) = 0)) := by
  have hp0 : st.heap_ptr ≠ 0 := by unfold HEAP_START at hlo; omega
  constructor
  · intro _ ht hfit
    obtain ⟨j1, j2, j3, j4⟩ := calloc_spec st nmemb size hlo hhi ht hfit
    exact ⟨j1 ▸ hp0, j1, j2, j3, j4⟩
  · intro hsmall ht hfit
    have hmod : nmemb * size % M = nmemb * size := Nat.mod_eq_of_lt hsmall
    rw [← hmod] at ht hfit
    obtain ⟨j1, -, j3, -⟩ := calloc_spec st nmemb size hlo hhi ht hfit
    rw [hmod] at j3
    refine ⟨j1 ▸ hp0, ?_⟩
    intro i hi
    rw [j1]
    exact j3 i hi

/-- Witness for claim C9: nmemb = size = 2^32, whose product is exactly 2^64,
wrapping to a byte count of 0; calloc still returns a non-null pointer. -/
theorem c9_calloc_wrapping_witness :
    (calloc initHeap (2 ^ 32) (2 ^ 32)).1 ≠ 0 :=
  ((c9_calloc_wrapping initHeap (2 ^ 32) (2 ^ 32) (by decide) (by decide)).1
    (by decide) (by decide) (by decide)).1

/-- A concrete well-formed heap state with one 16-byte block already
allocated at HEAP_START. -/
def demoHeap : HeapSt := { heap_ptr := HEAP_START + 16, mem := fun _ => 0 }

/-- Claim C10: for a non-null pointer to a previously allocated block (a
block wholly below the bump pointer) and a size whose fresh allocation
succeeds, realloc returns the fresh block at the old bump pointer — disjoint
from (entirely above) the old block — writes no memory at all (so the old
bytes are not copied to the new block), never reclaims the old block (the
bump pointer does not move back), and free is a no-op on every pointer. -/
theorem c10_realloc_fresh_no_copy (st : HeapSt) (ptr oldsize size : Nat)
    (hptr : ptr ≠ 0)
    (hold : ptr + oldsize ≤ st.heap_ptr)
    (hlo : HEAP_START ≤ st.heap_ptr) (hhi : st.heap_ptr ≤ heap_end)
    (hs : size ≤ HEAP_SIZE)
    (hfit : st.heap_ptr + alignSize size ≤ heap_end) :
    (realloc st ptr size).1 = st.heap_ptr ∧
    (realloc st ptr size).1 ≠ 0 ∧
    ptr + oldsize ≤ (realloc st ptr size).1 ∧
    (realloc st ptr size).2.mem = st.mem ∧
    st.heap_ptr ≤ (realloc st ptr size).2.heap_ptr ∧
    (∀ (s : HeapSt) (q : Nat), free s q = s) := by
  have hm := malloc_eq_of_bounds st size hhi hs
  rw [if_neg (not_lt.mpr hfit)] at hm
  have hp0 : st.heap_ptr ≠ 0 := by unfold HEAP_START at hlo; omega
  unfold realloc
  rw [if_neg hptr]
  dsimp only
  rw [hm]
  rw [if_neg hp0]
  exact ⟨rfl, hp0, hold, rfl, Nat.le_add_right _ _, fun s q => rfl⟩

/-- Witness for claim C10 at a concrete state: reallocating the block at
HEAP_START returns the current bump pointer. -/
theorem c10_realloc_fresh_no_copy_witness :
    (realloc demoHeap HEAP_START 32).1 = demoHeap.heap_ptr :=
  (c10_realloc_fresh_no_copy demoHeap HEAP_START 16 32 (by decide) (by decide)
    (by decide) (by decide) (by decide) (by decide)).1

end StubLibc

namespace NH3

/-!
Model of the nh3 HTTP/3 connection engine.  The values below are taken from
the `nghttp3_error` enumeration and the macros of
`src/userspace/lib/nh3/include/nghttp3.h`, which is part of the repository
sources.  The behaviour of the declared functions is not in the repository
(the header only declares them); where a behaviour is needed it is modelled
from the specification, as noted on each definition.
-/

def NGHTTP3_NO_ERROR : Int := 0
def NGHTTP3_ERR_INVALID_ARGUMENT : Int := -101
def NGHTTP3_ERR_NOBUF : Int := -102
def NGHTTP3_ERR_INVALID_STATE : Int := -103
def NGHTTP3_ERR_WOULDBLOCK : Int := -104
def NGHTTP3_ERR_STREAM_IN_USE : Int := -105
def NGHTTP3_ERR_PUSH_ID_BLOCKED : Int := -106
def NGHTTP3_ERR_MALFORMED_HTTP_HEADER : Int := -107
def NGHTTP3_ERR_REMOVE_HTTP_HEADER : Int := -108
def NGHTTP3_ERR_MALFORMED_HTTP_MESSAGING : Int := -109
def NGHTTP3_ERR_QPACK_FATAL : Int := -110
def NGHTTP3_ERR_QPACK_HEADER_TOO_LARGE : Int := -111
def NGHTTP3_ERR_IGNORE_STREAM : Int := -112
def NGHTTP3_ERR_H3_FRAME_UNEXPECTED : Int := -113
def NGHTTP3_ERR_H3_FRAME_ERROR : Int := -114
def NGHTTP3_ERR_H3_MISSING_SETTINGS : Int := -115
def NGHTTP3_ERR_H3_INTERNAL_ERROR : Int := -116
def NGHTTP3_ERR_H3_CLOSED_CRITICAL_STREAM : Int := -117
def NGHTTP3_ERR_H3_GENERAL_PROTOCOL_ERROR : Int := -118
def NGHTTP3_ERR_H3_ID_ERROR : Int := -119
def NGHTTP3_ERR_H3_SETTINGS_ERROR : Int := -120
def NGHTTP3_ERR_H3_STREAM_CREATION_ERROR : Int := -121
def NGHTTP3_ERR_FATAL : Int := -501
def NGHTTP3_ERR_NOMEM : Int := -502
def NGHTTP3_ERR_CALLBACK_FAILURE : Int := -503

/-- All values of the `nghttp3_error` enumeration, in declaration order. -/
def errorCodes : List Int :=
  [NGHTTP3_NO_ERROR, NGHTTP3_ERR_INVALID_ARGUMENT, NGHTTP3_ERR_NOBUF,
   NGHTTP3_ERR_INVALID_STATE, NGHTTP3_ERR_WOULDBLOCK, NGHTTP3_ERR_STREAM_IN_USE,
   NGHTTP3_ERR_PUSH_ID_BLOCKED, NGHTTP3_ERR_MALFORMED_HTTP_HEADER,
   NGHTTP3_ERR_REMOVE_HTTP_HEADER, NGHTTP3_ERR_MALFORMED_HTTP_MESSAGING,
   NGHTTP3_ERR_QPACK_FATAL, NGHTTP3_ERR_QPACK_HEADER_TOO_LARGE,
   NGHTTP3_ERR_IGNORE_STREAM, NGHTTP3_ERR_H3_FRAME_UNEXPECTED,
   NGHTTP3_ERR_H3_FRAME_ERROR, NGHTTP3_ERR_H3_MISSING_SETTINGS,
   NGHTTP3_ERR_H3_INTERNAL_ERROR, NGHTTP3_ERR_H3_CLOSED_CRITICAL_STREAM,
   NGHTTP3_ERR_H3_GENERAL_PROTOCOL_ERROR, NGHTTP3_ERR_H3_ID_ERROR,
   NGHTTP3_ERR_H3_SETTINGS_ERROR, NGHTTP3_ERR_H3_STREAM_CREATION_ERROR,
   NGHTTP3_ERR_FATAL, NGHTTP3_ERR_NOMEM, NGHTTP3_ERR_CALLBACK_FAILURE]

/-- Modelled from the spec: the implementation of `nghttp3_err_is_fatal` is
not in the repository (the header only declares it).  The spec classifies
as connection-fatal exactly critical-stream closure, QPACK fatal desync and
internal invariant violation (H3InternalError, Fatal, NoMem); the predicate
classifies every code as fatal-or-not. -/
def nghttp3_err_is_fatal (error_code : Int) : Int :=
  if error_code = NGHTTP3_ERR_H3_CLOSED_CRITICAL_STREAM ∨
     error_code = NGHTTP3_ERR_QPACK_FATAL ∨
     error_code = NGHTTP3_ERR_H3_INTERNAL_ERROR ∨
     error_code = NGHTTP3_ERR_FATAL ∨
     error_code = NGHTTP3_ERR_NOMEM
  then 1 else 0

/-- Claim C3: over every code of the `nghttp3_error` enumeration,
`nghttp3_err_is_fatal` is nonzero exactly for the five connection-fatal
codes, and in particular zero for the per-submission codes
InvalidArgument, StreamInUse and QpackHeaderTooLarge. -/
theorem c3_err_is_fatal_classification (c : Int) (hc : c ∈ errorCodes) :
    (nghttp3_err_is_fatal c ≠ 0 ↔
      (c = NGHTTP3_ERR_H3_CLOSED_CRITICAL_STREAM ∨ c = NGHTTP3_ERR_QPACK_FATAL ∨
       c = NGHTTP3_ERR_H3_INTERNAL_ERROR ∨ c = NGHTTP3_ERR_FATAL ∨
       c = NGHTTP3_ERR_NOMEM)) ∧
    nghttp3_err_is_fatal NGHTTP3_ERR_INVALID_ARGUMENT = 0 ∧
    nghttp3_err_is_fatal NGHTTP3_ERR_STREAM_IN_USE = 0 ∧
    nghttp3_err_is_fatal NGHTTP3_ERR_QPACK_HEADER_TOO_LARGE = 0 := by
  fin_cases hc <;> exact ⟨by decide, by decide, by decide, by decide⟩

/-- Witness for claim C3 at the concrete code NGHTTP3_ERR_FATAL. -/
theorem c3_err_is_fatal_classification_witness :
    nghttp3_err_is_fatal NGHTTP3_ERR_FATAL ≠ 0 :=
  (c3_err_is_fatal_classification NGHTTP3_ERR_FATAL (by decide)).1.mpr
    (Or.inr (Or.inr (Or.inr (Or.inl rfl))))

/-- Modelled from the spec: the implementations of the four stream-id
predicates are not in the repository (the header only declares them).  Per
the spec, a stream id's role and directionality are derived from its low two
bits, so each predicate tests the low two bits of the id.  The argument is
the two's-complement 64-bit pattern of the signed stream id. -/
def nghttp3_client_stream_bidi (stream_id : Nat) : Bool := stream_id &&& 3 == 0

/-- Modelled from the spec: see nghttp3_client_stream_bidi. -/
def nghttp3_server_stream_bidi (stream_id : Nat) : Bool := stream_id &&& 3 == 1

/-- Modelled from the spec: see nghttp3_client_stream_bidi. -/
def nghttp3_client_stream_uni (stream_id : Nat) : Bool := stream_id &&& 3 == 2

/-- Modelled from the spec: see nghttp3_client_stream_bidi. -/
def nghttp3_server_stream_uni (stream_id : Nat) : Bool := stream_id &&& 3 == 3

/-- Claim C2: for every 64-bit stream id, the four predicates hold exactly as
dictated by bit 0 (client 0 / server 1 origin) and bit 1 (bidirectional 0 /
unidirectional 1). -/
theorem c2_stream_id_predicates (id : Nat) (h : id < 2 ^ 64) :
    (nghttp3_client_stream_bidi id = true ↔
      (id.testBit 0 = false ∧ id.testBit 1 = false)) ∧
    (nghttp3_server_stream_bidi id = true ↔
      (id.testBit 0 = true ∧ id.testBit 1 = false)) ∧
    (nghttp3_client_stream_uni id = true ↔
      (id.testBit 0 = false ∧ id.testBit 1 = true)) ∧
    (nghttp3_server_stream_uni id = true ↔
      (id.testBit 0 = true ∧ id.testBit 1 = true)) := by
  have hland : id &&& 3 = id % 4 := by
    have h2 := Nat.and_pow_two_sub_one_eq_mod id 2
    norm_num at h2
    exact h2
  have hb0 : id.testBit 0 = decide (id / 2 ^ 0 % 2 = 1) := Nat.testBit_to_div_mod
  have hb1 : id.testBit 1 = decide (id / 2 ^ 1 % 2 = 1) := Nat.testBit_to_div_mod
  simp only [nghttp3_client_stream_bidi, nghttp3_server_stream_bidi,
    nghttp3_client_stream_uni, nghttp3_server_stream_uni, hland, hb0, hb1,
    beq_iff_eq, pow_zero, Nat.div_one, pow_one, decide_eq_false_iff_not,
    decide_eq_true_eq]
  omega

/-- Witness for claim C2 at the concrete id 6 (binary 110: bit 0 clear,
bit 1 set — a client unidirectional stream id). -/
theorem c2_stream_id_predicates_witness :
    nghttp3_client_stream_uni 6 = true ↔
      (Nat.testBit 6 0 = false ∧ Nat.testBit 6 1 = true) :=
  (c2_stream_id_predicates 6 (by decide)).2.2.1

/-- The NGHTTP3_DEFAULT_URGENCY macro from the header. -/
def NGHTTP3_DEFAULT_URGENCY : Nat := 3

/-- The NGHTTP3_URGENCY_LOW macro from the header: the lowest urgency value. -/
def NGHTTP3_URGENCY_LOW : Nat := 7

/-- The `nghttp3_pri` priority record: urgency and incremental flag. -/
structure nghttp3_pri where
  urgency : Nat
  inc : Bool

/-- Modelled from the spec: the implementation of `nghttp3_pri_default` is
not in the repository (the header only declares it).  The spec fixes the
default urgency at 3 with the incremental flag unset; the C function
overwrites the record passed to it. -/
def nghttp3_pri_default (pri : nghttp3_pri) : nghttp3_pri :=
  { urgency := NGHTTP3_DEFAULT_URGENCY, inc := false }

/-- Claim C7: after `nghttp3_pri_default` on any priority record, the urgency
equals NGHTTP3_DEFAULT_URGENCY = 3, which is within the valid range 0..7,
and the incremental flag is unset. -/
theorem c7_pri_default (p : nghttp3_pri) :
    (nghttp3_pri_default p).urgency = NGHTTP3_DEFAULT_URGENCY ∧
    (nghttp3_pri_default p).urgency = 3 ∧
    (nghttp3_pri_default p).urgency ≤ NGHTTP3_URGENCY_LOW ∧
    (nghttp3_pri_default p).inc = false := by
  refine ⟨rfl, rfl, ?_, rfl⟩
  show NGHTTP3_DEFAULT_URGENCY ≤ NGHTTP3_URGENCY_LOW
  decide

/-- Witness for claim C7 on a concrete priority record. -/
theorem c7_pri_default_witness :
    (nghttp3_pri_default ⟨0, true⟩).urgency = NGHTTP3_DEFAULT_URGENCY ∧
    (nghttp3_pri_default ⟨0, true⟩).urgency = 3 ∧
    (nghttp3_pri_default ⟨0, true⟩).urgency ≤ NGHTTP3_URGENCY_LOW ∧
    (nghttp3_pri_default ⟨0, true⟩).inc = false :=
  c7_pri_default ⟨0, true⟩

/-!
Stream lifecycle.  Modelled from the spec: the stream state machine is not in
the repository (the header declares only the `nghttp3_stream_close` callback
type).  Per the spec, `fin` on the read side moves the remote side to
half-closed; once both sides are half-closed the stream moves to `Closed`,
firing `stream_close` with application error code 0; a transport reset or
`close_stream` forces `Closed` immediately, firing `stream_close` with the
signalled code; closed is terminal.
-/

/-- The lifecycle-relevant state of one stream: whether the read direction
and the write direction are done, whether the stream is closed, and the
sticky application error code. -/
structure StreamLife where
  readDone : Bool
  writeDone : Bool
  closed : Bool
  appError : Nat

/-- Lifecycle events that can reach a stream: a `fin` on the read side, a
`fin` on the write side, a transport reset, a local `close_stream`, and
ordinary data activity (which has no lifecycle effect). -/
inductive StreamEvent where
  | recvFin
  | sendFin
  | reset (code : Nat)
  | closeStream (code : Nat)
  | dataChunk (n : Nat)

/-- One lifecycle transition.  Returns the new stream state and `some code`
exactly when the `stream_close` callback fires with that application error
code. -/
def lifeStep (s : StreamLife) (e : StreamEvent) : StreamLife × Option Nat :=
  if s.closed then (s, none)
  else
    match e with
    | .recvFin =>
      if s.writeDone then
        ({ s with readDone := true, closed := true, appError := 0 }, some 0)
      else
        ({ s with readDone := true }, none)
    | .sendFin =>
      if s.readDone then
        ({ s with writeDone := true, closed := true, appError := 0 }, some 0)
      else
        ({ s with writeDone := true }, none)
    | .reset code => ({ s with closed := true, appError := code }, some code)
    | .closeStream code => ({ s with closed := true, appError := code }, some code)
    | .dataChunk _ => (s, none)

/-- Run a stream through a sequence of lifecycle events, collecting the
application error codes of all `stream_close` emissions. -/
def lifeRun (s : StreamLife) : List StreamEvent → StreamLife × List Nat
  | [] => (s, [])
  | e :: es =>
    let r := lifeStep s e
    let rest := lifeRun r.1 es
    (rest.1, r.2.toList ++ rest.2)

/-- A freshly created stream: neither direction done, not closed. -/
def initLife : StreamLife :=
  { readDone := false, writeDone := false, closed := false, appError := 0 }

lemma lifeStep_closed (s : StreamLife) (e : StreamEvent) (h : s.closed = true) :
    lifeStep s e = (s, none) := by
  unfold lifeStep
  rw [h]
  rfl

lemma lifeRun_closed (es : List StreamEvent) : ∀ s : StreamLife,
    s.closed = true → lifeRun s es = (s, []) := by
  induction es with
  | nil => intro s _; rfl
  | cons e es ih =>
    intro s h
    rw [lifeRun, lifeStep_closed s e h]
    rw [ih s h]
    rfl

lemma lifeStep_emit_closed (s : StreamLife) (e : StreamEvent) :
    ∀ s' c, lifeStep s e = (s', some c) → s'.closed = true := by
  intro s' c h
  have hcl : (lifeStep s e).1.closed = s'.closed := by rw [h]
  by_cases hc : s.closed = true
  · rw [lifeStep_closed s e hc] at h
    simp at h
  · rw [← hcl]
    cases e with
    | recvFin =>
      by_cases hw : s.writeDone = true
      · simp [lifeStep, hc, hw]
      · rw [show lifeStep s StreamEvent.recvFin =
            ({ s with readDone := true }, none) by simp [lifeStep, hc, hw]] at h
        simp at h
    | sendFin =>
      by_cases hr : s.readDone = true
      · simp [lifeStep, hc, hr]
      · rw [show lifeStep s StreamEvent.sendFin =
            ({ s with writeDone := true }, none) by simp [lifeStep, hc, hr]] at h
        simp at h
    | reset code => simp [lifeStep, hc]
    | closeStream code => simp [lifeStep, hc]
    | dataChunk n =>
      rw [show lifeStep s (StreamEvent.dataChunk n) = (s, none) by
        simp [lifeStep, hc]] at h
      simp at h

lemma lifeStep_noemit_closed (s : StreamLife) (e : StreamEvent) :
    ∀ s', lifeStep s e = (s', none) → s'.closed = s.closed := by
  intro s' h
  have hcl : (lifeStep s e).1.closed = s'.closed := by rw [h]
  by_cases hc : s.closed = true
  · rw [← hcl, lifeStep_closed s e hc]
  · rw [← hcl]
    cases e with
    | recvFin =>
      by_cases hw : s.writeDone = true
      · rw [show lifeStep s StreamEvent.recvFin =
            ({ s with readDone := true, closed := true, appError := 0 }, some 0) by
          simp [lifeStep, hc, hw]] at h
        simp at h
      · simp [lifeStep, hc, hw]
    | sendFin =>
      by_cases hr : s.readDone = true
      · rw [show lifeStep s StreamEvent.sendFin =
            ({ s with writeDone := true, closed := true, appError := 0 }, some 0) by
          simp [lifeStep, hc, hr]] at h
        simp at h
      · simp [lifeStep, hc, hr]
    | reset code =>
      rw [show lifeStep s (StreamEvent.reset code) =
          ({ s with closed := true, appError := code }, some code) by
        simp [lifeStep, hc]] at h
      simp at h
    | closeStream code =>
      rw [show lifeStep s (StreamEvent.closeStream code) =
          ({ s with closed := true, appError := code }, some code) by
        simp [lifeStep, hc]] at h
      simp at h
    | dataChunk n => simp [lifeStep, hc]

/-- Along any event sequence from a not-yet-closed stream, the number of
`stream_close` emissions is 1 if the final state is closed and 0 if not. -/
lemma lifeRun_count (es : List StreamEvent) : ∀ s : StreamLife,
    s.closed = false →
    (lifeRun s es).2.length = (if (lifeRun s es).1.closed = true then 1 else 0) := by
  induction es with
  | nil =>
    intro s h
    simp [lifeRun, h]
  | cons e es ih =>
    intro s h
    rw [lifeRun]
    rcases hstep : lifeStep s e with ⟨s', em⟩
    cases em with
    | some c =>
      have hcl : s'.closed = true := lifeStep_emit_closed s e s' c hstep
      rw [lifeRun_closed es s' hcl]
      simp [hcl]
    | none =>
      have hcl : s'.closed = false := by
        rw [lifeStep_noemit_closed s e s' hstep, h]
      simp only [Option.toList_none, List.nil_append]
      exact ih s' hcl

/-- Claim C1: over any sequence of lifecycle events, `stream_close` fires at
most once; it fires exactly once whenever the stream has reached `Closed`
(its lifetime has ended); and any firing transition either has both the read
and the write direction done afterwards, or is a forcible transport reset or
local `close_stream`. -/
theorem c1_stream_close_exactly_once (evs : List StreamEvent) :
    (lifeRun initLife evs).2.length ≤ 1 ∧
    ((lifeRun initLife evs).1.closed = true → (lifeRun initLife evs).2.length = 1) ∧
    (∀ (s s' : StreamLife) (e : StreamEvent) (c : Nat),
      lifeStep s e = (s', some c) →
      (s'.readDone = true ∧ s'.writeDone = true) ∨
      (∃ code, e = StreamEvent.reset code ∨ e = StreamEvent.closeStream code)) := by
  have hcount := lifeRun_count evs initLife rfl
  refine ⟨?_, ?_, ?_⟩
  · rw [hcount]
    by_cases h : (lifeRun initLife evs).1.closed = true <;> simp [h]
  · intro h
    rw [hcount, if_pos h]
  · intro s s' e c h
    have hrd : (lifeStep s e).1.readDone = s'.readDone := by rw [h]
    have hwd : (lifeStep s e).1.writeDone = s'.writeDone := by rw [h]
    by_cases hc : s.closed = true
    · rw [lifeStep_closed s e hc] at h
      simp at h
    · cases e with
      | recvFin =>
        by_cases hw : s.writeDone = true
        · left
          rw [← hrd, ← hwd]
          constructor <;> simp [lifeStep, hc, hw]
        · rw [show lifeStep s StreamEvent.recvFin =
              ({ s with readDone := true }, none) by simp [lifeStep, hc, hw]] at h
          simp at h
      | sendFin =>
        by_cases hr : s.readDone = true
        · left
          rw [← hrd, ← hwd]
          constructor <;> simp [lifeStep, hc, hr]
        · rw [show lifeStep s StreamEvent.sendFin =
              ({ s with writeDone := true }, none) by simp [lifeStep, hc, hr]] at h
          simp at h
      | reset code => exact Or.inr ⟨code, Or.inl rfl⟩
      | closeStream code => exact Or.inr ⟨code, Or.inr rfl⟩
      | dataChunk n =>
        rw [show lifeStep s (StreamEvent.dataChunk n) = (s, none) by
          simp [lifeStep, hc]] at h
        simp at h

/-- Witness for claim C1 on a concrete event sequence: read fin then write
fin closes the stream and fires `stream_close` exactly once. -/
theorem c1_stream_close_exactly_once_witness :
    (lifeRun initLife [StreamEvent.recvFin, StreamEvent.sendFin]).1.closed = true →
    (lifeRun initLife [StreamEvent.recvFin, StreamEvent.sendFin]).2.length = 1 :=
  (c1_stream_close_exactly_once [StreamEvent.recvFin, StreamEvent.sendFin]).2.1

/-!
Write scheduler.  Modelled from the spec: the implementation of
`nghttp3_conn_writev_stream` and the scheduler behind it is not in the
repository (the header only declares the function).  Per the spec, ready
streams (non-empty outbound buffer or unfinished pull source) are
partitioned by urgency; within a bucket non-incremental streams are serviced
to completion in order while incremental streams round-robin one quantum at
a time; control and QPACK-encoder streams with pending bytes are always
scheduled ahead of request/response streams; when nothing is ready the call
reports the no-data sentinel (stream id -1, return value 0); a selected
stream whose pull source has no data yet yields WOULDBLOCK.
-/

/-- Whether a stream is critical (control / QPACK encoder side stream) or an
ordinary request/response stream. -/
inductive StreamKind where
  | critical
  | request
deriving DecidableEq

/-- The scheduler-relevant state of one outbound stream. -/
structure SStream where
  id : Int
  kind : StreamKind
  urgency : Nat
  inc : Bool
  pending : Nat
  unfinished : Bool
deriving DecidableEq

/-- A stream is ready when it has buffered outbound bytes or an unfinished
pull source. -/
def isReady (s : SStream) : Bool := decide (0 < s.pending) || s.unfinished

/-- A critical stream with pending bytes, which must be scheduled ahead of
every request/response stream. -/
def isPendingCritical (s : SStream) : Bool :=
  decide (s.kind = StreamKind.critical) && decide (0 < s.pending)

/-- First stream of minimal urgency in a list (ties keep the earlier one). -/
def pickMinUrgency : List SStream → Option SStream
  | [] => none
  | s :: rest =>
    match pickMinUrgency rest with
    | none => some s
    | some t => if t.urgency < s.urgency then some t else some s

/-- Stream selection: a critical stream with pending bytes if any, otherwise
the first ready stream in the lowest-urgency bucket. -/
def selectStream (ss : List SStream) : Option SStream :=
  match ss.find? isPendingCritical with
  | some c => some c
  | none => pickMinUrgency (ss.filter isReady)

/-- The scheduler state of a connection: its outbound streams in round-robin
order. -/
structure WConn where
  streams : List SStream

/-- Modelled from the spec: one `nghttp3_conn_writev_stream` call with total
vector capacity `cap`.  The result triple is (stream id stored in
pstream_id, fin flag, return value: bytes written or an error code); when no
stream is ready the result is the no-data sentinel (-1, false, 0).  A
serviced non-incremental stream keeps its position (it is drained to
completion before its bucket moves on); a serviced incremental stream is
rotated to the back. -/
def nghttp3_conn_writev_stream (c : WConn) (cap : Nat) :
    (Int × Bool × Int) × WConn :=
  match selectStream c.streams with
  | none => ((-1, false, 0), c)
  | some s =>
    if s.pending = 0 then ((-1, false, NGHTTP3_ERR_WOULDBLOCK), c)
    else
      let n := min cap s.pending
      let s' : SStream := { s with pending := s.pending - n }
      let fin : Bool := decide (s'.pending = 0) && !s'.unfinished
      let streams' :=
        if s.inc then c.streams.filter (fun t => !(t.id == s.id)) ++ [s']
        else c.streams.map (fun t => if t.id == s.id then s' else t)
      ((s.id, fin, (n : Int)), { streams := streams' })

/-- Iterate `nghttp3_conn_writev_stream`, keeping only the connection. -/
def iterWritev (cap : Nat) : WConn → Nat → WConn
  | c, 0 => c
  | c, n + 1 => iterWritev cap (nghttp3_conn_writev_stream c cap).2 n

/-- The pending byte count of the stream with the given id. -/
def getPending (c : WConn) (id : Int) : Nat :=
  match c.streams.find? (fun t => t.id == id) with
  | some s => s.pending
  | none => 0

/-- Claim C4: on a connection with no ready streams the call stores -1 into
pstream_id and returns 0 (the no-data sentinel); and with a positive vector
capacity it never pairs a real stream id with zero bytes written (a
selected-but-dataless stream yields WOULDBLOCK instead). -/
theorem c4_writev_no_ready_sentinel (c : WConn) (cap : Nat) :
    ((∀ s ∈ c.streams, isReady s = false) →
      (nghttp3_conn_writev_stream c cap).1 = (-1, false, 0)) ∧
    (0 < cap →
      ∀ id fin, (nghttp3_conn_writev_stream c cap).1 = (id, fin, 0) → id = -1) := by
  constructor
  · intro hnone
    have hfind : c.streams.find? isPendingCritical = none := by
      rw [List.find?_eq_none]
      intro s hs hcrit
      have hready : isReady s = true := by
        unfold isPendingCritical at hcrit
        unfold isReady
        simp only [Bool.and_eq_true, decide_eq_true_eq] at hcrit
        simp [hcrit.2]
      rw [hnone s hs] at hready
      exact absurd hready (by simp)
    have hfilter : c.streams.filter isReady = [] := by
      rw [List.filter_eq_nil_iff]
      intro s hs
      rw [hnone s hs]
      simp
    unfold nghttp3_conn_writev_stream selectStream
    rw [hfind, hfilter]
    rfl
  · intro hcap id fin h
    unfold nghttp3_conn_writev_stream at h
    cases hsel : selectStream c.streams with
    | none =>
      rw [hsel] at h
      simp only [Prod.mk.injEq] at h
      exact h.1.symm
    | some s =>
      rw [hsel] at h
      dsimp only at h
      by_cases hp : s.pending = 0
      · rw [if_pos hp] at h
        simp only [Prod.mk.injEq] at h
        have : (0 : Int) = NGHTTP3_ERR_WOULDBLOCK := h.2.2.symm
        exact absurd this (by decide)
      · rw [if_neg hp] at h
        simp only [Prod.mk.injEq] at h
        have hn : (0 : Int) = (min cap s.pending : Nat) := h.2.2.symm
        have hpos : 0 < min cap s.pending := by
          apply Nat.lt_min.mpr
          exact ⟨hcap, Nat.pos_of_ne_zero hp⟩
        omega

/-- Witness for claim C4 on the empty connection. -/
theorem c4_writev_no_ready_sentinel_witness :
    (nghttp3_conn_writev_stream ⟨[]⟩ 1).1 = (-1, false, 0) :=
  (c4_writev_no_ready_sentinel ⟨[]⟩ 1).1 (by simp)

/-- A request/response stream with no unfinished pull source, used for the
scheduling scenarios. -/
def reqStream (id : Int) (u : Nat) (i : Bool) (p : Nat) : SStream :=
  { id := id, kind := StreamKind.request, urgency := u, inc := i,
    pending := p, unfinished := false }

lemma writev_noninc_pair (idA idB : Int) (u a b cap : Nat)
    (hne : idA ≠ idB) (ha : 0 < a) :
    nghttp3_conn_writev_stream ⟨[reqStream idA u false a, reqStream idB u false b]⟩ cap =
      ((idA, decide (a - min cap a = 0), ((min cap a : Nat) : Int)),
       ⟨[reqStream idA u false (a - min cap a), reqStream idB u false b]⟩) := by
  have ha' : a ≠ 0 := by omega
  have hba : (idB == idA) = false := by simp [Ne.symm hne]
  unfold nghttp3_conn_writev_stream selectStream
  rcases Nat.eq_zero_or_pos b with hb | hb
  · subst hb
    simp [isPendingCritical, isReady, reqStream, pickMinUrgency, List.find?,
      List.filter, ha, ha', hba, hne, Ne.symm hne]
  · simp [isPendingCritical, isReady, reqStream, pickMinUrgency, List.find?,
      List.filter, ha, ha', hba, hb, hne, Ne.symm hne]

lemma writev_noninc_pair_left_idle (idA idB : Int) (u b cap : Nat)
    (hne : idA ≠ idB) (hb : 0 < b) :
    nghttp3_conn_writev_stream ⟨[reqStream idA u false 0, reqStream idB u false b]⟩ cap =
      ((idB, decide (b - min cap b = 0), ((min cap b : Nat) : Int)),
       ⟨[reqStream idA u false 0, reqStream idB u false (b - min cap b)]⟩) := by
  have hb' : b ≠ 0 := by omega
  have hab : (idA == idB) = false := by simp [hne]
  unfold nghttp3_conn_writev_stream selectStream
  simp [isPendingCritical, isReady, reqStream, pickMinUrgency, List.find?,
    List.filter, hb, hb', hab, hne, Ne.symm hne]

lemma writev_pair_idle (idA idB : Int) (u cap : Nat) (i j : Bool) :
    nghttp3_conn_writev_stream ⟨[reqStream idA u i 0, reqStream idB u j 0]⟩ cap =
      ((-1, false, 0), ⟨[reqStream idA u i 0, reqStream idB u j 0]⟩) := by
  unfold nghttp3_conn_writev_stream selectStream
  simp [isPendingCritical, isReady, reqStream, pickMinUrgency, List.find?,
    List.filter]

lemma writev_inc_pair (idA idB : Int) (u a b cap : Nat)
    (hne : idA ≠ idB) (ha : 0 < a) :
    nghttp3_conn_writev_stream ⟨[reqStream idA u true a, reqStream idB u true b]⟩ cap =
      ((idA, decide (a - min cap a = 0), ((min cap a : Nat) : Int)),
       ⟨[reqStream idB u true b, reqStream idA u true (a - min cap a)]⟩) := by
  have ha' : a ≠ 0 := by omega
  have hba : (idB == idA) = false := by simp [Ne.symm hne]
  unfold nghttp3_conn_writev_stream selectStream
  rcases Nat.eq_zero_or_pos b with hb | hb
  · subst hb
    simp [isPendingCritical, isReady, reqStream, pickMinUrgency, List.find?,
      List.filter, ha, ha', hba, hne, Ne.symm hne]
  · simp [isPendingCritical, isReady, reqStream, pickMinUrgency, List.find?,
      List.filter, ha, ha', hba, hb, hne, Ne.symm hne]

lemma iterWritev_succ_back (cap : Nat) : ∀ (n : Nat) (c : WConn),
    iterWritev cap c (n + 1) =
      (nghttp3_conn_writev_stream (iterWritev cap c n) cap).2 := by
  intro n
  induction n with
  | zero => intro c; rfl
  | succ n ih =>
    intro c
    rw [show iterWritev cap c (n + 1 + 1) =
        iterWritev cap (nghttp3_conn_writev_stream c cap).2 (n + 1) from rfl]
    rw [ih, show iterWritev cap c (n + 1) =
        iterWritev cap (nghttp3_conn_writev_stream c cap).2 n from rfl]

/-- Invariant for two same-urgency non-incremental streams: the first keeps
its pending count bound and the second is untouched until the first is fully
drained. -/
lemma iter_noninc_invariant (idA idB : Int) (u cap : Nat) (hne : idA ≠ idB) :
    ∀ (n a b : Nat), ∃ a' b',
      iterWritev cap ⟨[reqStream idA u false a, reqStream idB u false b]⟩ n =
        ⟨[reqStream idA u false a', reqStream idB u false b']⟩ ∧
      a' ≤ a ∧ (b' = b ∨ a' = 0) := by
  intro n
  induction n with
  | zero => intro a b; exact ⟨a, b, rfl, le_refl _, Or.inl rfl⟩
  | succ n ih =>
    intro a b
    rcases Nat.eq_zero_or_pos a with ha | ha
    · subst ha
      rcases Nat.eq_zero_or_pos b with hb | hb
      · subst hb
        obtain ⟨a', b', heq, hle, hor⟩ := ih 0 0
        refine ⟨a', b', ?_, hle, hor⟩
        rw [show iterWritev cap ⟨[reqStream idA u false 0, reqStream idB u false 0]⟩ (n + 1) =
            iterWritev cap (nghttp3_conn_writev_stream
              ⟨[reqStream idA u false 0, reqStream idB u false 0]⟩ cap).2 n from rfl]
        rw [writev_pair_idle idA idB u cap false false]
        exact heq
      · obtain ⟨a', b', heq, hle, hor⟩ := ih 0 (b - min cap b)
        refine ⟨a', b', ?_, hle, Or.inr (by omega)⟩
        rw [show iterWritev cap ⟨[reqStream idA u false 0, reqStream idB u false b]⟩ (n + 1) =
            iterWritev cap (nghttp3_conn_writev_stream
              ⟨[reqStream idA u false 0, reqStream idB u false b]⟩ cap).2 n from rfl]
        rw [writev_noninc_pair_left_idle idA idB u b cap hne hb]
        exact heq
    · obtain ⟨a', b', heq, hle, hor⟩ := ih (a - min cap a) b
      refine ⟨a', b', ?_, by omega, hor⟩
      rw [show iterWritev cap ⟨[reqStream idA u false a, reqStream idB u false b]⟩ (n + 1) =
          iterWritev cap (nghttp3_conn_writev_stream
            ⟨[reqStream idA u false a, reqStream idB u false b]⟩ cap).2 n from rfl]
      rw [writev_noninc_pair idA idB u a b cap hne ha]
      exact heq

/-- Invariant for two same-urgency incremental streams: after 2k quanta of
size cap each, each stream has received exactly k quanta and they are back
in the original order. -/
lemma iter_inc_invariant (idA idB : Int) (u cap : Nat) (hne : idA ≠ idB)
    (hcap : 0 < cap) :
    ∀ (k a b : Nat), (k + 1) * cap ≤ a → (k + 1) * cap ≤ b →
      iterWritev cap ⟨[reqStream idA u true a, reqStream idB u true b]⟩ (2 * k) =
        ⟨[reqStream idA u true (a - k * cap), reqStream idB u true (b - k * cap)]⟩ := by
  intro k
  induction k with
  | zero =>
    intro a b _ _
    simp [iterWritev]
  | succ k ih =>
    intro a b hA hB
    have hcapA : cap ≤ a := by
      calc cap = 1 * cap := (one_mul cap).symm
        _ ≤ (k + 1 + 1) * cap := Nat.mul_le_mul_right cap (by omega)
        _ ≤ a := hA
    have hcapB : cap ≤ b := by
      calc cap = 1 * cap := (one_mul cap).symm
        _ ≤ (k + 1 + 1) * cap := Nat.mul_le_mul_right cap (by omega)
        _ ≤ b := hB
    have hA' : (k + 1) * cap ≤ a - cap := by
      apply Nat.le_sub_of_add_le
      calc (k + 1) * cap + cap = (k + 1 + 1) * cap := by ring
        _ ≤ a := hA
    have hB' : (k + 1) * cap ≤ b - cap := by
      apply Nat.le_sub_of_add_le
      calc (k + 1) * cap + cap = (k + 1 + 1) * cap := by ring
        _ ≤ b := hB
    have h2k : 2 * (k + 1) = 2 * k + 1 + 1 := by ring
    rw [h2k]
    rw [show iterWritev cap ⟨[reqStream idA u true a, reqStream idB u true b]⟩ (2 * k + 1 + 1) =
        iterWritev cap (nghttp3_conn_writev_stream
          ⟨[reqStream idA u true a, reqStream idB u true b]⟩ cap).2 (2 * k + 1) from rfl]
    rw [writev_inc_pair idA idB u a b cap hne (by omega)]
    rw [show iterWritev cap ⟨[reqStream idB u true b, reqStream idA u true (a - min cap a)]⟩ (2 * k + 1) =
        iterWritev cap (nghttp3_conn_writev_stream
          ⟨[reqStream idB u true b, reqStream idA u true (a - min cap a)]⟩ cap).2 (2 * k) from rfl]
    rw [writev_inc_pair idB idA u b (a - min cap a) cap (Ne.symm hne) (by omega)]
    rw [Nat.min_eq_left hcapA, Nat.min_eq_left hcapB]
    rw [ih (a - cap) (b - cap) hA' hB']
    rw [Nat.sub_sub, Nat.sub_sub,
      show cap + k * cap = (k + 1) * cap from by ring]

lemma getPending_pair_right (idA idB : Int) (u u2 : Nat) (i j : Bool)
    (a b : Nat) (hne : idA ≠ idB) :
    getPending ⟨[reqStream idA u i a, reqStream idB u2 j b]⟩ idB = b := by
  have hab : (idA == idB) = false := by simp [hne]
  unfold getPending
  simp [reqStream, List.find?, hab]

lemma getPending_pair_left (idA idB : Int) (u u2 : Nat) (i j : Bool)
    (a b : Nat) :
    getPending ⟨[reqStream idA u i a, reqStream idB u2 j b]⟩ idA = a := by
  unfold getPending
  simp [reqStream, List.find?]

/-- Claim C5: (1) two ready non-incremental streams of equal urgency are
serviced strictly: the second one's pending bytes are untouched until the
first is fully drained; (2) two incremental streams of equal urgency receive
alternating single quanta: with enough pending data, call 2k selects the
first stream and call 2k+1 selects the second, for every k; (3) whenever any
critical (control / QPACK encoder) stream has pending bytes, the scheduler
selects a critical stream ahead of every request/response stream. -/
theorem c5_scheduler_priority (idA idB : Int) (u cap : Nat)
    (hne : idA ≠ idB) (hcap : 0 < cap) :
    (∀ n a b,
      getPending (iterWritev cap
        ⟨[reqStream idA u false a, reqStream idB u false b]⟩ n) idB = b ∨
      getPending (iterWritev cap
        ⟨[reqStream idA u false a, reqStream idB u false b]⟩ n) idA = 0) ∧
    (∀ k a b, (k + 1) * cap ≤ a → (k + 1) * cap ≤ b →
      (nghttp3_conn_writev_stream (iterWritev cap
        ⟨[reqStream idA u true a, reqStream idB u true b]⟩ (2 * k)) cap).1.1 = idA ∧
      (nghttp3_conn_writev_stream (iterWritev cap
        ⟨[reqStream idA u true a, reqStream idB u true b]⟩ (2 * k + 1)) cap).1.1 = idB) ∧
    (∀ c : WConn, (∃ s ∈ c.streams, s.kind = StreamKind.critical ∧ 0 < s.pending) →
      ∃ t, selectStream c.streams = some t ∧ t.kind = StreamKind.critical) := by
  refine ⟨?_, ?_, ?_⟩
  · intro n a b
    obtain ⟨a', b', heq, hle, hor⟩ := iter_noninc_invariant idA idB u cap hne n a b
    rw [heq]
    rcases hor with h | h
    · left
      rw [getPending_pair_right idA idB u u false false a' b' hne, h]
    · right
      rw [getPending_pair_left idA idB u u false false a' b', h]
  · intro k a b hA hB
    have hinv := iter_inc_invariant idA idB u cap hne hcap k a b hA hB
    have hposA : 0 < a - k * cap := by
      have h1 : k * cap < k * cap + cap := Nat.lt_add_of_pos_right hcap
      have h2 : k * cap + cap ≤ a := by
        calc k * cap + cap = (k + 1) * cap := by ring
          _ ≤ a := hA
      omega
    have hposB : 0 < b - k * cap := by
      have h1 : k * cap < k * cap + cap := Nat.lt_add_of_pos_right hcap
      have h2 : k * cap + cap ≤ b := by
        calc k * cap + cap = (k + 1) * cap := by ring
          _ ≤ b := hB
      omega
    constructor
    · rw [hinv, writev_inc_pair idA idB u (a - k * cap) (b - k * cap) cap hne hposA]
    · rw [iterWritev_succ_back cap (2 * k)
        ⟨[reqStream idA u true a, reqStream idB u true b]⟩]
      rw [hinv, writev_inc_pair idA idB u (a - k * cap) (b - k * cap) cap hne hposA]
      rw [writev_inc_pair idB idA u (b - k * cap) (a - k * cap - min cap (a - k * cap))
        cap (Ne.symm hne) hposB]
  · intro c hex
    obtain ⟨s, hs, h1, h2⟩ := hex
    have hsome : (c.streams.find? isPendingCritical).isSome := by
      rw [List.find?_isSome]
      refine ⟨s, hs, ?_⟩
      unfold isPendingCritical
      simp [h1, h2]
    obtain ⟨t, ht⟩ := Option.isSome_iff_exists.mp hsome
    have hcrit : isPendingCritical t = true := List.find?_some ht
    refine ⟨t, ?_, ?_⟩
    · unfold selectStream
      rw [ht]
    · unfold isPendingCritical at hcrit
      simp only [Bool.and_eq_true, decide_eq_true_eq] at hcrit
      exact hcrit.1

/-- Witness for claim C5: with streams of ids 0 and 4, urgency 3,
quantum 1, the non-incremental invariant instantiated after one call. -/
theorem c5_scheduler_priority_witness :
    getPending (iterWritev 1
      ⟨[reqStream 0 3 false 2, reqStream 4 3 false 2]⟩ 1) 4 = 2 ∨
    getPending (iterWritev 1
      ⟨[reqStream 0 3 false 2, reqStream 4 3 false 2]⟩ 1) 0 = 0 :=
  (c5_scheduler_priority 0 4 3 1 (by decide) (by decide)).1 1 2 2

/-!
Header-block submission.  Modelled from the spec: the implementations of
`nghttp3_conn_submit_request` and `nghttp3_conn_submit_response` are not in
the repository (the header only declares them).  Per the spec, submitting a
header block fails with StreamInUse if headers were already submitted for
that stream and with InvalidState if the stream has closed; a failed
submission rejects only that call, leaving the connection and every stream
untouched. -/

/-- The submission-relevant state of one stream. -/
structure SubStream where
  id : Int
  headersSubmitted : Bool
  closed : Bool
deriving DecidableEq

/-- The submission-relevant state of a connection: its streams. -/
structure SubConn where
  streams : List SubStream
deriving DecidableEq

/-- Look up a stream by id. -/
def findSubStream (c : SubConn) (id : Int) : Option SubStream :=
  c.streams.find? (fun s => s.id == id)

/-- Modelled from the spec: the common submission path of submit_request and
submit_response.  Returns the error code and the resulting connection. -/
def submitHeaders (c : SubConn) (id : Int) : Int × SubConn :=
  match findSubStream c id with
  | none => (NGHTTP3_ERR_INVALID_ARGUMENT, c)
  | some s =>
    if s.closed then (NGHTTP3_ERR_INVALID_STATE, c)
    else if s.headersSubmitted then (NGHTTP3_ERR_STREAM_IN_USE, c)
    else (0, ⟨c.streams.map fun t =>
        if t.id == id then { t with headersSubmitted := true } else t⟩)

/-- Modelled from the spec: submit_request enqueues an outbound header block
on a client stream; its error paths are those of `submitHeaders`. -/
def nghttp3_conn_submit_request (c : SubConn) (id : Int) : Int × SubConn :=
  submitHeaders c id

/-- Modelled from the spec: submit_response enqueues an outbound header
block on a server stream; its error paths are those of `submitHeaders`. -/
def nghttp3_conn_submit_response (c : SubConn) (id : Int) : Int × SubConn :=
  submitHeaders c id

/-- Claim C6: submitting a header block on a stream that already has headers
submitted returns STREAM_IN_USE, and submitting on a closed stream returns
INVALID_STATE; in both cases the connection state (and with it every other
stream) is returned unchanged. -/
theorem c6_submit_error_paths (c : SubConn) (id : Int) (s : SubStream)
    (hfind : findSubStream c id = some s) :
    (s.closed = false → s.headersSubmitted = true →
      nghttp3_conn_submit_request c id = (NGHTTP3_ERR_STREAM_IN_USE, c) ∧
      nghttp3_conn_submit_response c id = (NGHTTP3_ERR_STREAM_IN_USE, c)) ∧
    (s.closed = true →
      nghttp3_conn_submit_request c id = (NGHTTP3_ERR_INVALID_STATE, c) ∧
      nghttp3_conn_submit_response c id = (NGHTTP3_ERR_INVALID_STATE, c)) := by
  constructor
  · intro hcl hsub
    have h : submitHeaders c id = (NGHTTP3_ERR_STREAM_IN_USE, c) := by
      unfold submitHeaders
      rw [hfind]
      simp [hcl, hsub]
    exact ⟨h, h⟩
  · intro hcl
    have h : submitHeaders c id = (NGHTTP3_ERR_INVALID_STATE, c) := by
      unfold submitHeaders
      rw [hfind]
      simp [hcl]
    exact ⟨h, h⟩

/-- Witness for claim C6 on a one-stream connection whose stream already has
headers submitted. -/
theorem c6_submit_error_paths_witness :
    nghttp3_conn_submit_request ⟨[⟨0, true, false⟩]⟩ 0 =
      (NGHTTP3_ERR_STREAM_IN_USE, (⟨[⟨0, true, false⟩]⟩ : SubConn)) :=
  ((c6_submit_error_paths ⟨[⟨0, true, false⟩]⟩ 0 ⟨0, true, false⟩
    (by decide)).1 rfl rfl).1

end NH3
